import Mathlib

/-!
Verification of the conversion core of the rantoo epoch-converter web
application (`app.py`): the parser `human_to_epoch`, the formatter
`epoch_to_human`, the helper `normalize_timezone`, and the nested helper
`localize_and_convert_to_utc`.

The Python code delegates calendar arithmetic to the standard `datetime`
library and timezone handling to the third-party `pytz` library.  Those
libraries are modelled here as executable Lean functions:

* the proleptic Gregorian calendar (used by `datetime.strptime`,
  `datetime.fromtimestamp` and `datetime.timestamp`) is modelled with the
  standard era-decomposition algorithms over `Int` using floor division,
  which agrees with Python's `//` and `%`;
* `pytz` zone lookup is modelled by a finite table of zone identifiers with
  the case-insensitive matching performed by `pytz.timezone` (pytz ≥ 2018.4;
  the repository's own test-suite passes mixed-case identifiers such as
  "America/Los_Angeles" to code paths that lowercase them first, so the
  case-insensitive behaviour is the one consistent with the tests);
* daylight-saving rules are modelled exactly for America/Los_Angeles with
  the post-2006 US rules (DST from 02:00 on the second Sunday of March to
  02:00 on the first Sunday of November, offsets UTC-8/UTC-7); other zones
  are modelled as fixed-offset zones.  The theorems below only depend on
  the parts that are modelled exactly;
* `\d` in the Python regexes and the digit handling of `strptime` are
  modelled for ASCII digits.

Strings are modelled through their character lists (`String.data`).
-/

namespace Rantoo

/-! ## Digit and padding utilities -/

/-- Numeric value of an ASCII digit character (`int` applied to a matched
regex group in `strptime`). -/
def dval (c : Char) : Nat := c.toNat - 48

/-- The ASCII digit character for a single digit value. -/
def digitChar : Nat → Char
  | 0 => '0' | 1 => '1' | 2 => '2' | 3 => '3' | 4 => '4'
  | 5 => '5' | 6 => '6' | 7 => '7' | 8 => '8' | _ => '9'

/-- Two-digit zero-padded decimal rendering (Python `%m`, `%d`, `%H`, `%M`,
`%S` in `strftime`). -/
def pad2 (n : Nat) : List Char := [digitChar (n / 10 % 10), digitChar (n % 10)]

/-- Four-digit zero-padded decimal rendering (Python `%Y` in `strftime`;
the outputs relevant to the theorems all have years ≥ 1000, where padding
is immaterial). -/
def pad4 (n : Nat) : List Char :=
  [digitChar (n / 1000 % 10), digitChar (n / 100 % 10),
   digitChar (n / 10 % 10), digitChar (n % 10)]

/-- Value of two digit characters. -/
def val2 (a b : Char) : Nat := 10 * dval a + dval b

/-- Value of four digit characters. -/
def val4 (a b c d : Char) : Nat :=
  1000 * dval a + 100 * dval b + 10 * dval c + dval d

theorem digitChar_isDigit {k : Nat} (h : k ≤ 9) : (digitChar k).isDigit = true := by
  interval_cases k <;> decide

theorem dval_digitChar {k : Nat} (h : k ≤ 9) : dval (digitChar k) = k := by
  interval_cases k <;> decide

theorem digitChar_ne_colon {k : Nat} (h : k ≤ 9) : (digitChar k = ':') = False := by
  interval_cases k <;> decide

theorem val2_pad2 {n : Nat} (h : n ≤ 99) :
    val2 (digitChar (n / 10 % 10)) (digitChar (n % 10)) = n := by
  simp only [val2]
  rw [dval_digitChar (by omega), dval_digitChar (by omega)]
  omega

theorem val4_pad4 {n : Nat} (h : n ≤ 9999) :
    val4 (digitChar (n / 1000 % 10)) (digitChar (n / 100 % 10))
      (digitChar (n / 10 % 10)) (digitChar (n % 10)) = n := by
  simp only [val4]
  rw [dval_digitChar (by omega), dval_digitChar (by omega),
      dval_digitChar (by omega), dval_digitChar (by omega)]
  omega

/-! ## Proleptic Gregorian calendar (model of Python `datetime`)

Python's `datetime` library implements the proleptic Gregorian calendar.
`days_from_civil`/`civil_from_days` are the standard era-decomposition
algorithms for the same calendar, stated with Lean's `Int` division, which
is Euclidean and agrees with Python's floor division on the positive
divisors used here. -/

/-- Leap year predicate of the Gregorian calendar (Python
`calendar.isleap`, used by `datetime`'s day-of-month validation). -/
def isLeap (y : Int) : Bool := y % 4 = 0 && (y % 100 ≠ 0 || y % 400 = 0)

theorem isLeap_iff {y : Int} :
    isLeap y = true ↔ (y % 4 = 0 ∧ (y % 100 ≠ 0 ∨ y % 400 = 0)) := by
  simp [isLeap]

/-- Number of days in a month, as validated by the `datetime` constructor. -/
def daysInMonth (y m : Int) : Int :=
  if m = 2 then (if isLeap y then 29 else 28)
  else if m = 4 ∨ m = 6 ∨ m = 9 ∨ m = 11 then 30
  else 31

/-- Days since 1970-01-01 of a Gregorian date. -/
def days_from_civil (y m d : Int) : Int :=
  let y' := if m ≤ 2 then y - 1 else y
  let era := y' / 400
  let yoe := y' - era * 400
  let mp := if m > 2 then m - 3 else m + 9
  let doy := (153 * mp + 2) / 5 + d - 1
  let doe := yoe * 365 + yoe / 4 - yoe / 100 + doy
  era * 146097 + doe - 719468

/-- Gregorian date (year, month, day) of a count of days since 1970-01-01. -/
def civil_from_days (z0 : Int) : Int × Int × Int :=
  let z := z0 + 719468
  let era := z / 146097
  let doe := z - era * 146097
  let yoe := (doe - doe / 1460 + doe / 36524 - doe / 146096) / 365
  let y' := yoe + era * 400
  let doy := doe - (365 * yoe + yoe / 4 - yoe / 100)
  let mp := (5 * doy + 2) / 153
  let d := doy - (153 * mp + 2) / 5 + 1
  let m := if mp < 10 then mp + 3 else mp - 9
  let y := if m ≤ 2 then y' + 1 else y'
  (y, m, d)

set_option maxHeartbeats 4000000 in
/-- Day-of-March-based-year bounds for the year-of-era extraction formula,
including the leap-year correlation needed for February-29 validity. -/
theorem doy_key (a : Int) (h0 : 0 ≤ a) (h1 : a ≤ 146096) :
    0 ≤ a - (365 * ((a - a / 1460 + a / 36524 - a / 146096) / 365)
        + ((a - a / 1460 + a / 36524 - a / 146096) / 365) / 4
        - ((a - a / 1460 + a / 36524 - a / 146096) / 365) / 100) ∧
    a - (365 * ((a - a / 1460 + a / 36524 - a / 146096) / 365)
        + ((a - a / 1460 + a / 36524 - a / 146096) / 365) / 4
        - ((a - a / 1460 + a / 36524 - a / 146096) / 365) / 100) ≤ 365 ∧
    (a - (365 * ((a - a / 1460 + a / 36524 - a / 146096) / 365)
        + ((a - a / 1460 + a / 36524 - a / 146096) / 365) / 4
        - ((a - a / 1460 + a / 36524 - a / 146096) / 365) / 100) = 365 →
      ((((a - a / 1460 + a / 36524 - a / 146096) / 365) + 1) % 4 = 0 ∧
        ((((a - a / 1460 + a / 36524 - a / 146096) / 365) + 1) % 100 ≠ 0 ∨
         (((a - a / 1460 + a / 36524 - a / 146096) / 365) + 1) % 400 = 0))) := by
  have hb1 : 0 ≤ (a - a / 1460 + a / 36524 - a / 146096) / 365 := by omega
  have hb2 : (a - a / 1460 + a / 36524 - a / 146096) / 365 ≤ 399 := by omega
  generalize hbe : (a - a / 1460 + a / 36524 - a / 146096) / 365 = b at hb1 hb2 ⊢
  interval_cases b <;> omega

/-- Bounds of the year-of-era extraction formula. -/
theorem yoe_bounds (a : Int) (h0 : 0 ≤ a) (h1 : a ≤ 146096) :
    0 ≤ (a - a / 1460 + a / 36524 - a / 146096) / 365 ∧
    (a - a / 1460 + a / 36524 - a / 146096) / 365 ≤ 399 := by
  omega

/-- Reconstruction lemma: `days_from_civil` inverts the field extraction of
`civil_from_days`, stated over explicitly named intermediate values. -/
theorem days_from_civil_reconstruct (z era doe yoe y' doy mp d m y : Int)
    (hera : era = (z + 719468) / 146097)
    (hdoe : doe = z + 719468 - era * 146097)
    (hyoe : yoe = (doe - doe / 1460 + doe / 36524 - doe / 146096) / 365)
    (hy' : y' = yoe + era * 400)
    (hdoy : doy = doe - (365 * yoe + yoe / 4 - yoe / 100))
    (hmp : mp = (5 * doy + 2) / 153)
    (hd : d = doy - (153 * mp + 2) / 5 + 1)
    (hm : m = if mp < 10 then mp + 3 else mp - 9)
    (hy : y = if m ≤ 2 then y' + 1 else y') :
    days_from_civil y m d = z := by
  have key := doy_key doe (by omega) (by omega)
  rw [← hyoe] at key
  have hmD : (mp < 10 ∧ m = mp + 3) ∨ (¬ mp < 10 ∧ m = mp - 9) := by
    by_cases hc : mp < 10
    · rw [if_pos hc] at hm; exact Or.inl ⟨hc, hm⟩
    · rw [if_neg hc] at hm; exact Or.inr ⟨hc, hm⟩
  have hyD : (m ≤ 2 ∧ y = y' + 1) ∨ (¬ m ≤ 2 ∧ y = y') := by
    by_cases hc : m ≤ 2
    · rw [if_pos hc] at hy; exact Or.inl ⟨hc, hy⟩
    · rw [if_neg hc] at hy; exact Or.inr ⟨hc, hy⟩
  clear hm hy
  have hdoeb : 0 ≤ doe ∧ doe ≤ 146096 := by omega
  have hyoeb : 0 ≤ yoe ∧ yoe ≤ 399 := by
    rw [hyoe]; exact yoe_bounds doe hdoeb.1 hdoeb.2
  have hmpb : 0 ≤ mp ∧ mp ≤ 11 := by omega
  have hsel : (if m ≤ 2 then y - 1 else y) = y' := by
    rcases hyD with ⟨h1, h2⟩ | ⟨h1, h2⟩
    · rw [if_pos h1]; omega
    · rw [if_neg h1]; omega
  have hmp2 : (if m > 2 then m - 3 else m + 9) = mp := by
    rcases hmD with ⟨h1, h2⟩ | ⟨h1, h2⟩
    · rw [if_pos (by omega)]; omega
    · rw [if_neg (by omega)]; omega
  have hera2 : y' / 400 = era := by omega
  have hyoe2 : y' - era * 400 = yoe := by omega
  simp only [days_from_civil]
  rw [hsel, hera2, hyoe2, hmp2]
  omega

/-- Field ranges of `civil_from_days`: the produced date is a valid
Gregorian date (month in 1..12, day within the month length), and its year
is determined within explicit day ranges. -/
theorem civil_from_days_valid (z era doe yoe y' doy mp d m y : Int)
    (hera : era = (z + 719468) / 146097)
    (hdoe : doe = z + 719468 - era * 146097)
    (hyoe : yoe = (doe - doe / 1460 + doe / 36524 - doe / 146096) / 365)
    (hy' : y' = yoe + era * 400)
    (hdoy : doy = doe - (365 * yoe + yoe / 4 - yoe / 100))
    (hmp : mp = (5 * doy + 2) / 153)
    (hd : d = doy - (153 * mp + 2) / 5 + 1)
    (hm : m = if mp < 10 then mp + 3 else mp - 9)
    (hy : y = if m ≤ 2 then y' + 1 else y') :
    1 ≤ m ∧ m ≤ 12 ∧ 1 ≤ d ∧ d ≤ daysInMonth y m := by
  have key := doy_key doe (by omega) (by omega)
  rw [← hyoe] at key
  have hmpb : 0 ≤ mp ∧ mp ≤ 11 := by omega
  have hmD : (mp < 10 ∧ m = mp + 3) ∨ (¬ mp < 10 ∧ m = mp - 9) := by
    by_cases hc : mp < 10
    · rw [if_pos hc] at hm; exact Or.inl ⟨hc, hm⟩
    · rw [if_neg hc] at hm; exact Or.inr ⟨hc, hm⟩
  have hyD : (m ≤ 2 ∧ y = y' + 1) ∨ (¬ m ≤ 2 ∧ y = y') := by
    by_cases hc : m ≤ 2
    · rw [if_pos hc] at hy; exact Or.inl ⟨hc, hy⟩
    · rw [if_neg hc] at hy; exact Or.inr ⟨hc, hy⟩
  clear hm hy
  refine ⟨by omega, by omega, by omega, ?_⟩
  by_cases hfeb : m = 2
  · rw [daysInMonth, if_pos hfeb]
    by_cases hl : isLeap y = true
    · rw [if_pos hl]
      omega
    · rw [if_neg hl]
      rw [isLeap_iff] at hl
      push_neg at hl
      omega
  · rw [daysInMonth, if_neg hfeb]
    by_cases h30 : m = 4 ∨ m = 6 ∨ m = 9 ∨ m = 11
    · rw [if_pos h30]
      omega
    · rw [if_neg h30]
      push_neg at h30
      omega

/-- Year bounds of `civil_from_days` on the day range corresponding to the
`datetime` range (years 1..9999) and on the sub-range of four-digit years. -/
theorem civil_from_days_year_bounds (z era doe yoe y' doy mp d m y : Int)
    (hera : era = (z + 719468) / 146097)
    (hdoe : doe = z + 719468 - era * 146097)
    (hyoe : yoe = (doe - doe / 1460 + doe / 36524 - doe / 146096) / 365)
    (hy' : y' = yoe + era * 400)
    (hdoy : doy = doe - (365 * yoe + yoe / 4 - yoe / 100))
    (hmp : mp = (5 * doy + 2) / 153)
    (hd : d = doy - (153 * mp + 2) / 5 + 1)
    (hm : m = if mp < 10 then mp + 3 else mp - 9)
    (hy : y = if m ≤ 2 then y' + 1 else y') :
    (-719162 ≤ z → z ≤ 2932896 → 1 ≤ y ∧ y ≤ 9999) ∧
    (-354285 ≤ z → z ≤ 2932896 → 1000 ≤ y ∧ y ≤ 9999) := by
  have key := doy_key doe (by omega) (by omega)
  rw [← hyoe] at key
  have hmpb : 0 ≤ mp ∧ mp ≤ 11 := by omega
  have hmD : (mp < 10 ∧ m = mp + 3) ∨ (¬ mp < 10 ∧ m = mp - 9) := by
    by_cases hc : mp < 10
    · rw [if_pos hc] at hm; exact Or.inl ⟨hc, hm⟩
    · rw [if_neg hc] at hm; exact Or.inr ⟨hc, hm⟩
  have hyD : (m ≤ 2 ∧ y = y' + 1) ∨ (¬ m ≤ 2 ∧ y = y') := by
    by_cases hc : m ≤ 2
    · rw [if_pos hc] at hy; exact Or.inl ⟨hc, hy⟩
    · rw [if_neg hc] at hy; exact Or.inr ⟨hc, hy⟩
  clear hm hy
  constructor <;> intro hz1 hz2 <;> omega


/-! ## Python exceptions and datetime values -/

/-- Kinds of Python exception relevant to the conversion core.  `valueError`
models `ValueError` (the spec's FormatError); the other constructors model
the pytz exceptions, which are not `ValueError` subclasses. -/
inductive PyErr where
  | valueError (msg : String)
  | ambiguousTimeError
  | nonExistentTimeError
  | unknownTimeZoneError
deriving DecidableEq, Repr

deriving instance DecidableEq for Except

/-- A naive `datetime.datetime` value: the six wall-clock fields. -/
structure DT where
  year : Int
  month : Int
  day : Int
  hour : Int
  minute : Int
  second : Int
deriving DecidableEq, Repr

/-- Model of `int(dt.replace(tzinfo=timezone.utc).timestamp())`: the epoch
seconds of a naive datetime interpreted as UTC wall-clock time. -/
def utcEpochOfDT (t : DT) : Int :=
  days_from_civil t.year t.month t.day * 86400
    + t.hour * 3600 + t.minute * 60 + t.second

/-! ## ASCII casefolding and stripping (models of `str.lower`, `str.strip`) -/

/-- ASCII lower-casing of one character (model of `str.lower`; the inputs
relevant to the claims are ASCII). -/
def lowerChar (c : Char) : Char :=
  match c with
  | 'A' => 'a' | 'B' => 'b' | 'C' => 'c' | 'D' => 'd' | 'E' => 'e'
  | 'F' => 'f' | 'G' => 'g' | 'H' => 'h' | 'I' => 'i' | 'J' => 'j'
  | 'K' => 'k' | 'L' => 'l' | 'M' => 'm' | 'N' => 'n' | 'O' => 'o'
  | 'P' => 'p' | 'Q' => 'q' | 'R' => 'r' | 'S' => 's' | 'T' => 't'
  | 'U' => 'u' | 'V' => 'v' | 'W' => 'w' | 'X' => 'x' | 'Y' => 'y'
  | 'Z' => 'z' | c => c

/-- Whitespace characters stripped by `str.strip()`. -/
def pySpace (c : Char) : Bool :=
  c == ' ' || c == '\t' || c == '\n' || c == '\r' || c == '\x0b' || c == '\x0c'

/-- Model of `str.strip()` on a character list. -/
def pyStrip (l : List Char) : List Char :=
  ((l.dropWhile pySpace).reverse.dropWhile pySpace).reverse

/-- Model of `s.lower()` on a string. -/
def pyLower (s : String) : String := String.mk (s.data.map lowerChar)

/-- Model of `s.lower().strip()` on a string. -/
def pyLowerStrip (s : String) : String := String.mk (pyStrip (s.data.map lowerChar))

/-! ## Timezone normalization (`normalize_timezone`, app.py lines 23-92) -/

/-- The static alias table of `normalize_timezone`, in source order. -/
def tz_map : List (String × String) := [
  ("pacific", "America/Los_Angeles"),
  ("pst", "America/Los_Angeles"),
  ("pdt", "America/Los_Angeles"),
  ("eastern", "America/New_York"),
  ("est", "America/New_York"),
  ("edt", "America/New_York"),
  ("central", "America/Chicago"),
  ("cst", "America/Chicago"),
  ("cdt", "America/Chicago"),
  ("mountain", "America/Denver"),
  ("mst", "America/Denver"),
  ("mdt", "America/Denver"),
  ("moscow", "Europe/Moscow"),
  ("msk", "Europe/Moscow"),
  ("london", "Europe/London"),
  ("gmt", "Europe/London"),
  ("paris", "Europe/Paris"),
  ("cet", "Europe/Paris"),
  ("berlin", "Europe/Berlin"),
  ("tokyo", "Asia/Tokyo"),
  ("jst", "Asia/Tokyo"),
  ("shanghai", "Asia/Shanghai"),
  ("dubai", "Asia/Dubai"),
  ("gst", "Asia/Dubai"),
  ("mumbai", "Asia/Kolkata"),
  ("ist", "Asia/Kolkata"),
  ("sydney", "Australia/Sydney"),
  ("aest", "Australia/Sydney"),
  ("auckland", "Pacific/Auckland"),
  ("nzst", "Pacific/Auckland")]

/-- Finite model of the pytz timezone database: the canonical identifiers
the repository can reach through its alias table, plus a few other real
pytz zone names.  `pytz.timezone` accepts any casing of these. -/
def pytz_all_timezones : List String := [
  "America/Los_Angeles", "America/New_York", "America/Chicago",
  "America/Denver", "Europe/Moscow", "Europe/London", "Europe/Paris",
  "Europe/Berlin", "Asia/Tokyo", "Asia/Shanghai", "Asia/Dubai",
  "Asia/Kolkata", "Australia/Sydney", "Pacific/Auckland",
  "UTC", "GMT", "EST", "MST", "HST", "CET", "WET", "EET"]

/-- Case-insensitive zone lookup of `pytz.timezone` (pytz ≥ 2018.4
accepts any casing of a known zone name). -/
def pytz_recognizes (s : String) : Bool :=
  pytz_all_timezones.any (fun z => pyLower z == pyLower s)

/-- Model of `normalize_timezone` (app.py lines 23-92).  `none` models both
a `None` argument and the `None` result ("unresolved"); the empty string is
falsy in Python and is treated like `None` by the `if not tz_input` guard. -/
def normalize_timezone : Option String → Option String
  | none => none
  | some raw =>
    if raw = "" then none
    else
      match (tz_map.find? (fun p => p.1 == pyLowerStrip raw)).map Prod.snd with
      | some v => some v
      | none =>
        if pytz_recognizes (pyLowerStrip raw) then some (pyLowerStrip raw) else none

/-! ## DST model for America/Los_Angeles

Post-2006 US rules: daylight saving time starts at 02:00 local standard
time on the second Sunday of March (the hour 02:00-02:59 does not exist)
and ends at 02:00 local daylight time on the first Sunday of November (the
hour 01:00-01:59 occurs twice).  Standard offset UTC-8 (PST), daylight
offset UTC-7 (PDT). -/

/-- Day of week of a Gregorian date, 0 = Sunday (1970-01-01 was a Thursday). -/
def dow (y m d : Int) : Int := (days_from_civil y m d + 4) % 7

/-- Day number of the first Sunday on or after the given date. -/
def firstSundayOnOrAfter (y m d : Int) : Int := d + (7 - dow y m d) % 7

/-- Day of March on which US daylight saving time starts (second Sunday). -/
def dstStartDay (y : Int) : Int := firstSundayOnOrAfter y 3 8

/-- Day of November on which US daylight saving time ends (first Sunday). -/
def dstEndDay (y : Int) : Int := firstSundayOnOrAfter y 11 1

/-- Lexicographic key for comparing wall-clock times within one year. -/
def wallKey (mo d h mi s : Int) : Int :=
  ((mo * 100 + d) * 100 + h) * 10000 + mi * 100 + s

/-- Result kind of `tz.localize(dt, is_dst=None)` for a zone with DST. -/
inductive LocalizeKind where
  | unique (offset : Int)
  | ambiguous
  | nonexistent
deriving DecidableEq, Repr

/-- Classification of a wall-clock time under the America/Los_Angeles DST
rules: nonexistent in the spring-forward hour, ambiguous in the fall-back
hour, otherwise a unique UTC offset (-25200 during DST, -28800 otherwise). -/
def la_localize_kind (t : DT) : LocalizeKind :=
  let sd := dstStartDay t.year
  let ed := dstEndDay t.year
  let k := wallKey t.month t.day t.hour t.minute t.second
  if t.month = 3 ∧ t.day = sd ∧ t.hour = 2 then .nonexistent
  else if t.month = 11 ∧ t.day = ed ∧ t.hour = 1 then .ambiguous
  else if wallKey 3 sd 3 0 0 ≤ k ∧ k < wallKey 11 ed 1 0 0 then .unique (-25200)
  else .unique (-28800)

/-- Standard UTC offsets used for the fixed-offset model of the remaining
zones reachable through `normalize_timezone`. -/
def fixed_zone_offsets : List (String × Int) := [
  ("america/new_york", -18000), ("america/chicago", -21600),
  ("america/denver", -25200), ("europe/moscow", 10800),
  ("europe/london", 0), ("europe/paris", 3600), ("europe/berlin", 3600),
  ("asia/tokyo", 32400), ("asia/shanghai", 28800), ("asia/dubai", 14400),
  ("asia/kolkata", 19800), ("australia/sydney", 36000),
  ("pacific/auckland", 43200), ("utc", 0), ("gmt", 0), ("est", -18000),
  ("mst", -25200), ("hst", -36000), ("cet", 3600), ("wet", 0), ("eet", 7200)]

/-- Model of `pytz.timezone(zone).localize(dt, is_dst=None)` followed by
`int(localized.astimezone(timezone.utc).timestamp())`: DST-aware for
America/Los_Angeles (raising on ambiguous and nonexistent times, as
`is_dst=None` does), fixed-offset for the other modelled zones. -/
def pytz_localize (zone : String) (t : DT) : Except PyErr Int :=
  if pyLower zone == "america/los_angeles" then
    match la_localize_kind t with
    | .unique off => .ok (utcEpochOfDT t - off)
    | .ambiguous => .error .ambiguousTimeError
    | .nonexistent => .error .nonExistentTimeError
  else
    match (fixed_zone_offsets.find? (fun p => p.1 == pyLower zone)).map Prod.snd with
    | some off => .ok (utcEpochOfDT t - off)
    | none => .error .unknownTimeZoneError

/-- Model of the helper `localize_and_convert_to_utc` nested inside
`human_to_epoch` (app.py lines 112-127): normalize the timezone; on
success localize and convert, with any exception caught and replaced by
the UTC interpretation; with no timezone or failed normalization fall back
to the UTC interpretation. -/
def localize_and_convert_to_utc (t : DT) (tz_name : Option String) : Int :=
  match tz_name with
  | some raw =>
    if raw ≠ "" then
      match normalize_timezone (some raw) with
      | some nz =>
        match pytz_localize nz t with
        | .ok e => e
        | .error _ => utcEpochOfDT t
      | none => utcEpochOfDT t
    else utcEpochOfDT t
  | none => utcEpochOfDT t

/-! ## The parser `human_to_epoch` (app.py lines 109-152)

Each regex `re.match(r'^...$', s)` is modelled by an extraction function on
the character list of the input; `$` in Python also matches just before a
final newline, which the `pyMatch` wrapper reproduces.  A branch whose
regex matched only because of a trailing newline then fails inside
`strptime` ("unconverted data remains"), exactly as in Python.
`strptime`'s field validation (both its own sub-regexes and the `datetime`
constructor) is collapsed into `checkFields`: every violation is a
`ValueError` in Python. -/

/-- Fields of `^\d{4}-\d{2}-\d{2}-\d{6}$` with `%Y-%m-%d-%H%M%S`. -/
def extract1 : List Char → Option (Nat × Nat × Nat × Nat × Nat × Nat)
  | [y1, y2, y3, y4, a, o1, o2, b, d1, d2, c, h1, h2, i1, i2, s1, s2] =>
    if y1.isDigit && y2.isDigit && y3.isDigit && y4.isDigit && a == '-' &&
       o1.isDigit && o2.isDigit && b == '-' && d1.isDigit && d2.isDigit &&
       c == '-' && h1.isDigit && h2.isDigit && i1.isDigit && i2.isDigit &&
       s1.isDigit && s2.isDigit
    then some (val4 y1 y2 y3 y4, val2 o1 o2, val2 d1 d2,
               val2 h1 h2, val2 i1 i2, val2 s1 s2)
    else none
  | _ => none

/-- Fields of `^\d{14}$` with `%Y%m%d%H%M%S`. -/
def extract2 : List Char → Option (Nat × Nat × Nat × Nat × Nat × Nat)
  | [y1, y2, y3, y4, o1, o2, d1, d2, h1, h2, i1, i2, s1, s2] =>
    if y1.isDigit && y2.isDigit && y3.isDigit && y4.isDigit &&
       o1.isDigit && o2.isDigit && d1.isDigit && d2.isDigit &&
       h1.isDigit && h2.isDigit && i1.isDigit && i2.isDigit &&
       s1.isDigit && s2.isDigit
    then some (val4 y1 y2 y3 y4, val2 o1 o2, val2 d1 d2,
               val2 h1 h2, val2 i1 i2, val2 s1 s2)
    else none
  | _ => none

/-- Fields of `^\d{12}$` with `%Y%m%d%H%M` (seconds default to 0; the
`dt.replace(second=0)` in the source is a no-op on the parsed value). -/
def extract3 : List Char → Option (Nat × Nat × Nat × Nat × Nat × Nat)
  | [y1, y2, y3, y4, o1, o2, d1, d2, h1, h2, i1, i2] =>
    if y1.isDigit && y2.isDigit && y3.isDigit && y4.isDigit &&
       o1.isDigit && o2.isDigit && d1.isDigit && d2.isDigit &&
       h1.isDigit && h2.isDigit && i1.isDigit && i2.isDigit
    then some (val4 y1 y2 y3 y4, val2 o1 o2, val2 d1 d2,
               val2 h1 h2, val2 i1 i2, 0)
    else none
  | _ => none

/-- Match `\d{1,2}` followed by the terminator character, returning the
value and the remainder.  Greedy matching with backtracking coincides with
this decision tree because the terminators used are not digits. -/
def digits12 : List Char → Char → Option (Nat × List Char)
  | a :: c :: r, t =>
    if a.isDigit then
      if c == t then some (dval a, r)
      else if c.isDigit then
        match r with
        | u :: r2 => if u == t then some (val2 a c, r2) else none
        | [] => none
      else none
    else none
  | _, _ => none

/-- Fields of `^\d{1,2}/\d{1,2}/\d{4} \d{1,2}:\d{2}$` with
`%m/%d/%Y %H:%M`, in source field order (month, day, year, hour, minute). -/
def extract4 (l : List Char) : Option (Nat × Nat × Nat × Nat × Nat) :=
  match digits12 l '/' with
  | none => none
  | some (mo, r1) =>
    match digits12 r1 '/' with
    | none => none
    | some (dd, r2) =>
      match r2 with
      | y1 :: y2 :: y3 :: y4 :: sp :: r3 =>
        if y1.isDigit && y2.isDigit && y3.isDigit && y4.isDigit && sp == ' ' then
          match digits12 r3 ':' with
          | none => none
          | some (hh, r4) =>
            match r4 with
            | [i1, i2] =>
              if i1.isDigit && i2.isDigit then
                some (mo, dd, val4 y1 y2 y3 y4, hh, val2 i1 i2)
              else none
            | _ => none
        else none
      | _ => none

/-- Field validation performed by `strptime`'s sub-patterns together with
the `datetime` constructor; any violation raises `ValueError` in Python. -/
def checkFields (y mo d h mi s : Nat) : Except PyErr DT :=
  if 1 ≤ y ∧ y ≤ 9999 ∧ 1 ≤ mo ∧ mo ≤ 12 ∧
     1 ≤ (d : Int) ∧ (d : Int) ≤ daysInMonth (y : Int) (mo : Int) ∧
     h ≤ 23 ∧ mi ≤ 59 ∧ s ≤ 59
  then .ok ⟨(y : Int), (mo : Int), (d : Int), (h : Int), (mi : Int), (s : Int)⟩
  else .error (.valueError "time data does not match format")

/-- Model of `datetime.strptime` on a branch whose regex matched: if the
exact extraction succeeds the fields are validated; otherwise the regex
matched only via the trailing-newline rule and `strptime` rejects the
leftover character. -/
def strptime_of (x : Option (Nat × Nat × Nat × Nat × Nat × Nat)) : Except PyErr DT :=
  match x with
  | some (y, mo, d, h, mi, s) => checkFields y mo d h mi s
  | none => .error (.valueError "unconverted data remains")

/-- Model of Python `re.match(r'^...$', s)` given the exact-match test of
the pattern: `$` also matches immediately before a final newline. -/
def pyMatch (core : List Char → Bool) (l : List Char) : Bool :=
  core l || (l.getLast? == some '\n' && core l.dropLast)

/-- Exact match of the first pattern. -/
def m1 (l : List Char) : Bool := (extract1 l).isSome

/-- Exact match of the second pattern. -/
def m2 (l : List Char) : Bool := (extract2 l).isSome

/-- Exact match of the third pattern. -/
def m3 (l : List Char) : Bool := (extract3 l).isSome

/-- Exact match of the fourth pattern. -/
def m4 (l : List Char) : Bool := (extract4 l).isSome

/-- The error message of the final `else` branch (app.py line 152). -/
def invalid_format_msg : String :=
  "Invalid datetime format. Supported formats: YYYY-MM-DD-HHMMSS, YYYYMMDDHHMMSS, YYYYMMDDHHMM, MM/DD/YYYY HH:MM"

/-- Model of `datetime.strptime` for the fourth pattern's field order. -/
def strptime4_of (x : Option (Nat × Nat × Nat × Nat × Nat)) : Except PyErr DT :=
  match x with
  | some (mo, dd, y, h, mi) => checkFields y mo dd h mi 0
  | none => .error (.valueError "unconverted data remains")

/-- Model of `human_to_epoch` (app.py lines 109-152): ordered dispatch over
the four patterns, then `strptime`, then timezone localization. -/
def human_to_epoch (s : String) (input_tz : Option String) : Except PyErr Int :=
  let l := s.data
  if pyMatch m1 l then
    match strptime_of (extract1 l) with
    | .ok t => .ok (localize_and_convert_to_utc t input_tz)
    | .error e => .error e
  else if pyMatch m2 l then
    match strptime_of (extract2 l) with
    | .ok t => .ok (localize_and_convert_to_utc t input_tz)
    | .error e => .error e
  else if pyMatch m3 l then
    match strptime_of (extract3 l) with
    | .ok t => .ok (localize_and_convert_to_utc t input_tz)
    | .error e => .error e
  else if pyMatch m4 l then
    match strptime4_of (extract4 l) with
    | .ok t => .ok (localize_and_convert_to_utc t input_tz)
    | .error e => .error e
  else .error (.valueError invalid_format_msg)

/-- The same dispatch with the declared pattern order reversed, used to
state that the pattern order does not affect the result. -/
def human_to_epoch_reordered (s : String) (input_tz : Option String) : Except PyErr Int :=
  let l := s.data
  if pyMatch m4 l then
    match strptime4_of (extract4 l) with
    | .ok t => .ok (localize_and_convert_to_utc t input_tz)
    | .error e => .error e
  else if pyMatch m3 l then
    match strptime_of (extract3 l) with
    | .ok t => .ok (localize_and_convert_to_utc t input_tz)
    | .error e => .error e
  else if pyMatch m2 l then
    match strptime_of (extract2 l) with
    | .ok t => .ok (localize_and_convert_to_utc t input_tz)
    | .error e => .error e
  else if pyMatch m1 l then
    match strptime_of (extract1 l) with
    | .ok t => .ok (localize_and_convert_to_utc t input_tz)
    | .error e => .error e
  else .error (.valueError invalid_format_msg)

/-! ## The formatter `epoch_to_human` (app.py lines 94-107) -/

/-- Input of `epoch_to_human`: the HTTP layer passes either an integer or
a string. -/
inductive EpochInput where
  | int (i : Int)
  | str (s : String)
deriving DecidableEq, Repr

/-- Decimal value of a nonempty all-digit character list. -/
def digitsVal : List Char → Option Nat
  | [] => none
  | l => if l.all Char.isDigit then some (l.foldl (fun acc c => 10 * acc + dval c) 0) else none

/-- Model of Python `float(...)` restricted to integral values: an `int`
argument is returned as is; a string argument is parsed as an optionally
signed decimal integer literal.  (Python's `float` also accepts fractional
and exponent forms; the claims under verification only involve integral
epochs, and non-numeric strings are rejected in both.) -/
def pyFloat : EpochInput → Option Int
  | .int i => some i
  | .str s =>
    match s.data with
    | '-' :: r => (digitsVal r).map (fun n => -(n : Int))
    | '+' :: r => (digitsVal r).map (fun n => (n : Int))
    | l => (digitsVal l).map (fun n => (n : Int))

/-- Model of `datetime.fromtimestamp(v, tz=timezone.utc)`: splits the epoch
into a day number and seconds of day; values outside the representable
`datetime` range (years 1..9999) raise. -/
def fromtimestamp_utc (v : Int) : Except PyErr DT :=
  if -62135596800 ≤ v ∧ v ≤ 253402300799 then
    let day := v / 86400
    let sod := v % 86400
    let c := civil_from_days day
    .ok ⟨c.1, c.2.1, c.2.2, sod / 3600, sod % 3600 / 60, sod % 60⟩
  else .error (.valueError "year is out of range")

/-- The C-locale weekday abbreviations used by `%a`. -/
def weekday_names : List String :=
  ["Sun", "Mon", "Tue", "Wed", "Thu", "Fri", "Sat"]

/-- Weekday abbreviation of a day number (1970-01-01 was a Thursday). -/
def weekday_abbrev (day : Int) : List Char :=
  (weekday_names.getD ((day + 4) % 7).toNat "Sun").data

/-- Rendering of `dt.strftime('%a %Y-%m-%d %H:%M:%S ...')` with the given
trailing zone label. -/
def format_dt (t : DT) (zone_label : List Char) : List Char :=
  weekday_abbrev (days_from_civil t.year t.month t.day)
    ++ ' ' :: pad4 t.year.toNat
    ++ '-' :: pad2 t.month.toNat
    ++ '-' :: pad2 t.day.toNat
    ++ ' ' :: pad2 t.hour.toNat
    ++ ':' :: pad2 t.minute.toNat
    ++ ':' :: pad2 t.second.toNat
    ++ ' ' :: zone_label

/-- UTC offset of America/Los_Angeles at a UTC instant: DST between 10:00
UTC of the second Sunday of March and 09:00 UTC of the first Sunday of
November of the instant's UTC year. -/
def la_offset_at (v : Int) : Int :=
  let y := (civil_from_days (v / 86400)).1
  let sUTC := days_from_civil y 3 (dstStartDay y) * 86400 + 10 * 3600
  let eUTC := days_from_civil y 11 (dstEndDay y) * 86400 + 9 * 3600
  if sUTC ≤ v ∧ v < eUTC then -25200 else -28800

/-- Abbreviations (`%Z`) for the fixed-offset zone models. -/
def zone_abbrevs : List (String × String) := [
  ("america/new_york", "EST"), ("america/chicago", "CST"),
  ("america/denver", "MST"), ("europe/moscow", "MSK"),
  ("europe/london", "GMT"), ("europe/paris", "CET"),
  ("europe/berlin", "CET"), ("asia/tokyo", "JST"),
  ("asia/shanghai", "CST"), ("asia/dubai", "GST"),
  ("asia/kolkata", "IST"), ("australia/sydney", "AEST"),
  ("pacific/auckland", "NZST"), ("utc", "UTC"), ("gmt", "GMT"),
  ("est", "EST"), ("mst", "MST"), ("hst", "HST"), ("cet", "CET"),
  ("wet", "WET"), ("eet", "EET")]

/-- Model of `dt.astimezone(tz)` followed by
`dt.strftime('%a %Y-%m-%d %H:%M:%S %Z')` for a normalized zone name;
`none` models an exception inside the `try` block (caught by the caller,
which falls back to the UTC rendering). -/
def pytz_format (zone : String) (v : Int) : Option String :=
  if pyLower zone == "america/los_angeles" then
    let off := la_offset_at v
    match fromtimestamp_utc (v + off) with
    | .ok t =>
      some (String.mk (format_dt t (if off = -25200 then "PDT".data else "PST".data)))
    | .error _ => none
  else
    match (fixed_zone_offsets.find? (fun p => p.1 == pyLower zone)).map Prod.snd,
          (zone_abbrevs.find? (fun p => p.1 == pyLower zone)).map Prod.snd with
    | some off, some ab =>
      match fromtimestamp_utc (v + off) with
      | .ok t => some (String.mk (format_dt t ab.data))
      | .error _ => none
    | _, _ => none

/-- The numeric stage of `epoch_to_human`: interpret the value as a UTC
instant (raising outside the representable range), then either render in a
successfully normalized target timezone or fall back to the UTC rendering
with the literal `UTC` label. -/
def epoch_to_human_core (v : Int) (target_tz : Option String) : Except PyErr String :=
  match fromtimestamp_utc v with
  | .error e => .error e
  | .ok t =>
    match target_tz with
    | some raw =>
      if raw ≠ "" then
        match normalize_timezone (some raw) with
        | some nz =>
          match pytz_format nz v with
          | some r => .ok r
          | none => .ok (String.mk (format_dt t ("UTC".data)))
        | none => .ok (String.mk (format_dt t ("UTC".data)))
      else .ok (String.mk (format_dt t ("UTC".data)))
    | none => .ok (String.mk (format_dt t ("UTC".data)))

/-- Model of `epoch_to_human` (app.py lines 94-107): convert the input to
a number (raising a `ValueError` on non-numeric strings), then run the
numeric stage. -/
def epoch_to_human (x : EpochInput) (target_tz : Option String) : Except PyErr String :=
  match pyFloat x with
  | none => .error (.valueError "could not convert string to float")
  | some v => epoch_to_human_core v target_tz

/-- Rewriting of the formatter's output into the first supported input
pattern: keep the `YYYY-MM-DD` date field, replace the separating space by
a dash and strip the colons of the `HH:MM:SS` time field (the example of
the round-trip claim: "Wed 2025-09-10 13:11:00 UTC" becomes
"2025-09-10-131100"). -/
def reformat (l : List Char) : List Char :=
  (l.drop 4).take 10 ++ '-' :: ((l.drop 15).take 8).filter (fun c => c != ':')



/-! ## Lemmas about the formatter -/

/-- The naive UTC datetime of an epoch value (the fields produced by
`datetime.fromtimestamp(v, tz=timezone.utc)`). -/
def dtOfEpoch (v : Int) : DT :=
  ⟨(civil_from_days (v / 86400)).1, (civil_from_days (v / 86400)).2.1,
   (civil_from_days (v / 86400)).2.2,
   v % 86400 / 3600, v % 86400 % 3600 / 60, v % 86400 % 60⟩

theorem fromtimestamp_utc_ok {v : Int}
    (h1 : -62135596800 ≤ v) (h2 : v ≤ 253402300799) :
    fromtimestamp_utc v = .ok (dtOfEpoch v) := by
  rw [fromtimestamp_utc, if_pos ⟨h1, h2⟩]
  rfl

/-- Destructuring of `civil_from_days` into its defining equations. -/
theorem civil_spec (z : Int) :
    ∃ era doe yoe y' doy mp d m y,
      era = (z + 719468) / 146097 ∧
      doe = z + 719468 - era * 146097 ∧
      yoe = (doe - doe / 1460 + doe / 36524 - doe / 146096) / 365 ∧
      y' = yoe + era * 400 ∧
      doy = doe - (365 * yoe + yoe / 4 - yoe / 100) ∧
      mp = (5 * doy + 2) / 153 ∧
      d = doy - (153 * mp + 2) / 5 + 1 ∧
      m = (if mp < 10 then mp + 3 else mp - 9) ∧
      y = (if m ≤ 2 then y' + 1 else y') ∧
      civil_from_days z = (y, m, d) := by
  refine ⟨_, _, _, _, _, _, _, _, _,
    rfl, rfl, rfl, rfl, rfl, rfl, rfl, rfl, rfl, ?_⟩
  rfl

/-- The weekday abbreviation is one of the seven three-letter names. -/
theorem weekday_abbrev_cases (day : Int) :
    ∃ w, w ∈ weekday_names ∧ weekday_abbrev day = w.data := by
  have h7 : (day + 4) % 7 = 0 ∨ (day + 4) % 7 = 1 ∨ (day + 4) % 7 = 2 ∨
      (day + 4) % 7 = 3 ∨ (day + 4) % 7 = 4 ∨ (day + 4) % 7 = 5 ∨
      (day + 4) % 7 = 6 := by omega
  rcases h7 with h | h | h | h | h | h | h <;>
    exact ⟨_, by rw [weekday_abbrev, h]; exact ⟨by decide, rfl⟩⟩

/-- Computation of `reformat` on a well-shaped formatter output: the
weekday is any three-character prefix, the time digits are any non-colon
characters. -/
theorem reformat_format (w : List Char) (hw : w.length = 3)
    (a1 a2 a3 a4 b1 b2 c1 c2 d1 d2 e1 e2 f1 f2 : Char) (tail : List Char)
    (hd1 : (d1 != ':') = true) (hd2 : (d2 != ':') = true)
    (he1 : (e1 != ':') = true) (he2 : (e2 != ':') = true)
    (hf1 : (f1 != ':') = true) (hf2 : (f2 != ':') = true) :
    reformat (w ++ ' ' :: ([a1, a2, a3, a4] ++ '-' :: ([b1, b2] ++ '-' :: ([c1, c2]
        ++ ' ' :: ([d1, d2] ++ ':' :: ([e1, e2] ++ ':' :: ([f1, f2] ++ ' ' :: tail)))))))
      = [a1, a2, a3, a4, '-', b1, b2, '-', c1, c2, '-', d1, d2, e1, e2, f1, f2] := by
  match w, hw with
  | [x1, x2, x3], _ =>
    simp only [reformat, List.cons_append, List.nil_append, List.drop_succ_cons,
      List.drop_zero, List.take_succ_cons, List.take_zero, List.filter_cons,
      hd1, hd2, he1, he2, hf1, hf2]
    simp [List.filter]

theorem digitChar_bne_colon {k : Nat} (h : k ≤ 9) : (digitChar k != ':') = true := by
  interval_cases k <;> decide

theorem daysInMonth_bounds (y m : Int) :
    28 ≤ daysInMonth y m ∧ daysInMonth y m ≤ 31 := by
  rw [daysInMonth]
  split
  · split <;> omega
  · split <;> omega

/-- Parsing a string of the first pattern built from zero-padded in-range
fields: the parser accepts it and interprets it as UTC wall-clock time. -/
theorem human_to_epoch_pattern1 (Y MO D H MI S : Nat)
    (hY1 : 1 ≤ Y) (hY2 : Y ≤ 9999) (hMO1 : 1 ≤ MO) (hMO2 : MO ≤ 12)
    (hD1 : 1 ≤ D) (hD2 : (D : Int) ≤ daysInMonth (Y : Int) (MO : Int))
    (hH : H ≤ 23) (hMI : MI ≤ 59) (hS : S ≤ 59) :
    human_to_epoch (String.mk (pad4 Y ++ '-' :: (pad2 MO ++ '-' :: (pad2 D
        ++ '-' :: (pad2 H ++ pad2 MI ++ pad2 S))))) none
      = .ok (utcEpochOfDT ⟨(Y : Int), (MO : Int), (D : Int), (H : Int), (MI : Int), (S : Int)⟩) := by
  have hdig : ∀ k : Nat, (digitChar (k % 10)).isDigit = true :=
    fun k => digitChar_isDigit (Nat.le_of_lt_succ (Nat.mod_lt k (by omega)))
  have hD99 : D ≤ 99 := by
    have := daysInMonth_bounds (Y : Int) (MO : Int)
    omega
  have hext : extract1 (pad4 Y ++ '-' :: (pad2 MO ++ '-' :: (pad2 D
      ++ '-' :: (pad2 H ++ pad2 MI ++ pad2 S)))) = some (Y, MO, D, H, MI, S) := by
    simp only [pad4, pad2, List.cons_append, List.nil_append, extract1]
    rw [if_pos]
    · rw [val4_pad4 hY2, val2_pad2 (by omega), val2_pad2 (by omega),
        val2_pad2 (by omega), val2_pad2 (by omega), val2_pad2 (by omega)]
    · simp only [hdig, digitChar_isDigit (show Y / 1000 % 10 ≤ 9 by omega),
        digitChar_isDigit (show Y / 100 % 10 ≤ 9 by omega),
        digitChar_isDigit (show Y / 10 % 10 ≤ 9 by omega),
        digitChar_isDigit (show MO / 10 % 10 ≤ 9 by omega),
        digitChar_isDigit (show D / 10 % 10 ≤ 9 by omega),
        digitChar_isDigit (show H / 10 % 10 ≤ 9 by omega),
        digitChar_isDigit (show MI / 10 % 10 ≤ 9 by omega),
        digitChar_isDigit (show S / 10 % 10 ≤ 9 by omega)]
      decide
  have hm1 : pyMatch m1 (pad4 Y ++ '-' :: (pad2 MO ++ '-' :: (pad2 D
      ++ '-' :: (pad2 H ++ pad2 MI ++ pad2 S)))) = true := by
    rw [pyMatch, m1, hext]
    rfl
  rw [human_to_epoch]
  simp only [String.mk]
  rw [if_pos hm1, hext]
  rw [strptime_of, checkFields, if_pos]
  · rfl
  · refine ⟨by omega, by omega, by omega, by omega, by omega, hD2, by omega, by omega, by omega⟩

/-- Computation of `reformat` on a formatter output: the weekday prefix and
zone label are discarded and the date and time digits are rearranged into
the first supported input pattern. -/
theorem reformat_format_dt (Y MO D H MI S : Int) (zl : List Char) :
    reformat (format_dt ⟨Y, MO, D, H, MI, S⟩ zl)
      = pad4 Y.toNat ++ '-' :: (pad2 MO.toNat ++ '-' :: (pad2 D.toNat
          ++ '-' :: (pad2 H.toNat ++ pad2 MI.toNat ++ pad2 S.toNat))) := by
  obtain ⟨w, hwmem, hweq⟩ := weekday_abbrev_cases (days_from_civil Y MO D)
  have hw3 : ∃ x1 x2 x3, w.data = [x1, x2, x3] := by
    simp only [weekday_names, List.mem_cons, List.not_mem_nil, or_false] at hwmem
    rcases hwmem with h | h | h | h | h | h | h <;> subst h <;> exact ⟨_, _, _, rfl⟩
  obtain ⟨x1, x2, x3, hx⟩ := hw3
  rw [format_dt]
  dsimp only
  rw [hweq, hx]
  simp only [pad4, pad2, List.cons_append, List.nil_append, List.append_assoc]
  simp only [reformat, List.drop_succ_cons, List.drop_zero, List.take_succ_cons,
    List.take_zero, List.filter_cons,
    digitChar_bne_colon (show H.toNat / 10 % 10 ≤ 9 by omega),
    digitChar_bne_colon (show H.toNat % 10 ≤ 9 by omega),
    digitChar_bne_colon (show MI.toNat / 10 % 10 ≤ 9 by omega),
    digitChar_bne_colon (show MI.toNat % 10 ≤ 9 by omega),
    digitChar_bne_colon (show S.toNat / 10 % 10 ≤ 9 by omega),
    digitChar_bne_colon (show S.toNat % 10 ≤ 9 by omega)]
  simp [List.filter]

/-- The formatter on an in-range integral epoch with no timezone returns
the UTC rendering of the epoch's UTC fields. -/
theorem epoch_to_human_utc (v : Int)
    (h1 : -62135596800 ≤ v) (h2 : v ≤ 253402300799) :
    epoch_to_human (.int v) none = .ok (String.mk (format_dt (dtOfEpoch v) ("UTC".data))) := by
  rw [show epoch_to_human (.int v) none = epoch_to_human_core v none from rfl,
    epoch_to_human_core, fromtimestamp_utc_ok h1 h2]

/-- C3: Round-trip: for every integer epoch value in the four-digit-year
range of the representable datetime range, re-parsing the date and time
fields of the formatter's output under the matching supported pattern
(rewriting "Wed 2025-09-10 13:11:00 UTC" as "2025-09-10-131100") with
`human_to_epoch` and no timezone yields the same epoch again. -/
theorem C3_round_trip (e : Int)
    (h1 : -30610224000 ≤ e) (h2 : e ≤ 253402300799) :
    epoch_to_human (.int e) none = .ok (String.mk (format_dt (dtOfEpoch e) ("UTC".data))) ∧
    human_to_epoch (String.mk (reformat (format_dt (dtOfEpoch e) ("UTC".data)))) none = .ok e := by
  refine ⟨epoch_to_human_utc e (by omega) h2, ?_⟩
  obtain ⟨era, doe, yoe, y', doy, mp, d, m, y, hera, hdoe, hyoe, hy',
    hdoy, hmp, hd, hm, hy, hciv⟩ := civil_spec (e / 86400)
  have hvalid := civil_from_days_valid (e / 86400) era doe yoe y' doy mp d m y
    hera hdoe hyoe hy' hdoy hmp hd hm hy
  have hybnd := (civil_from_days_year_bounds (e / 86400) era doe yoe y' doy mp d m y
    hera hdoe hyoe hy' hdoy hmp hd hm hy).2 (by omega) (by omega)
  have hrec := days_from_civil_reconstruct (e / 86400) era doe yoe y' doy mp d m y
    hera hdoe hyoe hy' hdoy hmp hd hm hy
  have hdmb := daysInMonth_bounds y m
  have hdt : dtOfEpoch e = ⟨y, m, d, e % 86400 / 3600, e % 86400 % 3600 / 60, e % 86400 % 60⟩ := by
    rw [dtOfEpoch, hciv]
  rw [hdt, reformat_format_dt]
  have hyc : ((y.toNat : Int)) = y := Int.toNat_of_nonneg (by omega)
  have hmc : ((m.toNat : Int)) = m := Int.toNat_of_nonneg (by omega)
  have hdc : ((d.toNat : Int)) = d := Int.toNat_of_nonneg (by omega)
  have hhc : (((e % 86400 / 3600).toNat : Int)) = e % 86400 / 3600 :=
    Int.toNat_of_nonneg (by omega)
  have hic : (((e % 86400 % 3600 / 60).toNat : Int)) = e % 86400 % 3600 / 60 :=
    Int.toNat_of_nonneg (by omega)
  have hsc : (((e % 86400 % 60).toNat : Int)) = e % 86400 % 60 :=
    Int.toNat_of_nonneg (by omega)
  rw [human_to_epoch_pattern1 y.toNat m.toNat d.toNat
    (e % 86400 / 3600).toNat (e % 86400 % 3600 / 60).toNat (e % 86400 % 60).toNat
    (by omega) (by omega) (by omega) (by omega) (by omega)
    (by rw [hdc, hyc, hmc]; omega) (by omega) (by omega) (by omega)]
  rw [utcEpochOfDT]
  dsimp only
  rw [hyc, hmc, hdc, hhc, hic, hsc, hrec]
  congr 1
  omega

/-- Witness for C3 at the concrete epoch 1757509860. -/
theorem C3_round_trip_witness :
    epoch_to_human (.int 1757509860) none
        = .ok (String.mk (format_dt (dtOfEpoch 1757509860) ("UTC".data))) ∧
    human_to_epoch (String.mk (reformat (format_dt (dtOfEpoch 1757509860) ("UTC".data)))) none
        = .ok 1757509860 :=
  C3_round_trip 1757509860 (by decide) (by decide)

/-! ## Simple evaluation lemmas for the formatter -/

/-- The formatter succeeds whenever the numeric value is representable,
regardless of the timezone argument. -/
theorem epoch_to_human_ok_of_range (x : EpochInput) (v : Int) (tz : Option String)
    (hf : pyFloat x = some v)
    (h1 : -62135596800 ≤ v) (h2 : v ≤ 253402300799) :
    ∃ r, epoch_to_human x tz = .ok r := by
  rw [show epoch_to_human x tz = epoch_to_human_core v tz from by rw [epoch_to_human, hf],
    epoch_to_human_core, fromtimestamp_utc_ok h1 h2]
  rcases tz with _ | raw
  · exact ⟨_, rfl⟩
  · dsimp only
    by_cases hr : raw ≠ ""
    · rw [if_pos hr]
      cases hn : normalize_timezone (some raw) with
      | none => exact ⟨_, rfl⟩
      | some nz =>
        dsimp only
        cases hp : pytz_format nz v with
        | none => exact ⟨_, rfl⟩
        | some r => exact ⟨_, rfl⟩
    · rw [if_neg hr]
      exact ⟨_, rfl⟩

/-! ## Claim theorems -/

/-- C1: For each of the four supported input formats, strings denoting the
same instant parse to the same epoch value: `human_to_epoch` with no
timezone maps "2025-09-10-131100", "20250910131100", "202509101311" and
"09/10/2025 13:11" each to the integer 1757509860. -/
theorem C1_four_formats_same_epoch :
    human_to_epoch "2025-09-10-131100" none = .ok 1757509860 ∧
    human_to_epoch "20250910131100" none = .ok 1757509860 ∧
    human_to_epoch "202509101311" none = .ok 1757509860 ∧
    human_to_epoch "09/10/2025 13:11" none = .ok 1757509860 :=
  ⟨by decide, by decide, by decide, by decide⟩

/-- Counterexample to C4: for the ambiguous local time 2025-11-02 01:30:00
in America/Los_Angeles the parser silently reinterprets the fields as UTC
(pytz raises, the handler catches and falls back), so the result is the
UTC reinterpretation and not the earlier-offset (PDT) instant; the
nonexistent local time 2025-03-09 02:30:00 likewise yields the UTC
reinterpretation and not the post-transition (PDT) instant. -/
theorem C4_counterexample :
    la_localize_kind ⟨2025, 11, 2, 1, 30, 0⟩ = .ambiguous ∧
    human_to_epoch "2025-11-02-013000" (some "America/Los_Angeles")
        = .ok (utcEpochOfDT ⟨2025, 11, 2, 1, 30, 0⟩) ∧
    utcEpochOfDT ⟨2025, 11, 2, 1, 30, 0⟩ ≠ utcEpochOfDT ⟨2025, 11, 2, 1, 30, 0⟩ + 25200 ∧
    la_localize_kind ⟨2025, 3, 9, 2, 30, 0⟩ = .nonexistent ∧
    human_to_epoch "2025-03-09-023000" (some "America/Los_Angeles")
        = .ok (utcEpochOfDT ⟨2025, 3, 9, 2, 30, 0⟩) ∧
    utcEpochOfDT ⟨2025, 3, 9, 2, 30, 0⟩ ≠ utcEpochOfDT ⟨2025, 3, 9, 2, 30, 0⟩ + 25200 :=
  ⟨by decide, by decide, by decide, by decide, by decide, by decide⟩

/-- C4 (amended): when the parsed local wall-clock time falls on a DST
transition of a normalized America/Los_Angeles timezone (ambiguous or
nonexistent), `localize_and_convert_to_utc` does not fail, but it does
silently reinterpret the fields as UTC: pytz's `is_dst=None` localization
raises and the surrounding handler falls back to the UTC interpretation. -/
theorem C4_dst_fallback_utc (t : DT)
    (h : la_localize_kind t = .ambiguous ∨ la_localize_kind t = .nonexistent) :
    localize_and_convert_to_utc t (some "America/Los_Angeles") = utcEpochOfDT t := by
  rw [localize_and_convert_to_utc, if_pos (by decide),
    show normalize_timezone (some "America/Los_Angeles") = some "america/los_angeles" from by decide]
  dsimp only
  rw [pytz_localize, if_pos (by decide)]
  rcases h with h | h <;> rw [h]

/-- Witness for C4 at the ambiguous local time 2025-11-02 01:30:00. -/
theorem C4_dst_fallback_utc_witness :
    localize_and_convert_to_utc ⟨2025, 11, 2, 1, 30, 0⟩ (some "America/Los_Angeles")
      = utcEpochOfDT ⟨2025, 11, 2, 1, 30, 0⟩ :=
  C4_dst_fallback_utc ⟨2025, 11, 2, 1, 30, 0⟩ (Or.inl (by decide))

/-- Counterexample to C6: `normalize_timezone` lowercases its input before
the lookup, so the canonical identifier "America/Los_Angeles" (recognized
by the timezone database) is not returned unchanged; and for the canonical
identifier "GMT" the alias table intervenes, making even double
application differ from single application. -/
theorem C6_counterexample :
    pytz_recognizes "America/Los_Angeles" = true ∧
    normalize_timezone (some "America/Los_Angeles") = some "america/los_angeles" ∧
    some "america/los_angeles" ≠ some "America/Los_Angeles" ∧
    pytz_recognizes "GMT" = true ∧
    normalize_timezone (some "GMT") = some "Europe/London" ∧
    normalize_timezone (normalize_timezone (some "GMT")) = some "europe/london" ∧
    normalize_timezone (normalize_timezone (some "GMT")) ≠ normalize_timezone (some "GMT") :=
  ⟨by decide, by decide, by decide, by decide, by decide, by decide, by decide⟩

/-- C6 (amended): for a nonempty token whose lowercased trimmed form is
not an alias-table key and is recognized (case-insensitively) by the
timezone database, `normalize_timezone` returns the lowercased trimmed
form; on such tokens applying it twice equals applying it once. -/
theorem C6_normalize_lowercases (raw s : String)
    (hraw : raw ≠ "") (hs : pyLowerStrip raw = s) (hss : pyLowerStrip s = s)
    (hmap : tz_map.find? (fun p => p.1 == s) = none)
    (hrec : pytz_recognizes s = true) :
    normalize_timezone (some raw) = some s ∧
    normalize_timezone (normalize_timezone (some raw)) = normalize_timezone (some raw) := by
  have hse : s ≠ "" := by
    intro hc
    rw [hc] at hrec
    exact absurd hrec (by decide)
  have h1 : normalize_timezone (some raw) = some s := by
    rw [normalize_timezone, if_neg hraw, hs, hmap]
    show (if pytz_recognizes s = true then some s else none) = some s
    rw [if_pos hrec]
  refine ⟨h1, ?_⟩
  rw [h1]
  rw [normalize_timezone, if_neg hse, hss, hmap]
  show (if pytz_recognizes s = true then some s else none) = some s
  rw [if_pos hrec]

/-- Witness for C6 at the canonical identifier "America/Los_Angeles". -/
theorem C6_normalize_lowercases_witness :
    normalize_timezone (some "America/Los_Angeles") = some "america/los_angeles" ∧
    normalize_timezone (normalize_timezone (some "America/Los_Angeles"))
      = normalize_timezone (some "America/Los_Angeles") :=
  C6_normalize_lowercases "America/Los_Angeles" "america/los_angeles"
    (by decide) (by decide) (by decide) (by decide) (by decide)

/-- The localization helper ignores a timezone spec that fails to
normalize. -/
theorem localize_unresolved (tzRaw : String)
    (h : normalize_timezone (some tzRaw) = none) (t : DT) :
    localize_and_convert_to_utc t (some tzRaw) = localize_and_convert_to_utc t none := by
  rw [localize_and_convert_to_utc, localize_and_convert_to_utc]
  by_cases hr : tzRaw ≠ ""
  · rw [if_pos hr, h]
  · rw [if_neg hr]

/-- C7: unresolved timezone specs are treated as absent, never as an
error: whenever `normalize_timezone` returns `none` for a spec, parsing
with that spec equals parsing with no timezone (UTC interpretation), and
formatting with that spec equals formatting with no timezone (ending in
the literal "UTC"); neither call fails because of the timezone. -/
theorem C7_unresolved_tz_acts_as_absent (tzRaw : String)
    (h : normalize_timezone (some tzRaw) = none) :
    (∀ s, human_to_epoch s (some tzRaw) = human_to_epoch s none) ∧
    (∀ x, epoch_to_human x (some tzRaw) = epoch_to_human x none) := by
  constructor
  · intro s
    rw [human_to_epoch, human_to_epoch]
    by_cases h1 : pyMatch m1 s.data
    · rw [if_pos h1, if_pos h1]
      cases hx : strptime_of (extract1 s.data) <;>
        simp [localize_unresolved tzRaw h]
    · rw [if_neg h1, if_neg h1]
      by_cases h2 : pyMatch m2 s.data
      · rw [if_pos h2, if_pos h2]
        cases hx : strptime_of (extract2 s.data) <;>
          simp [localize_unresolved tzRaw h]
      · rw [if_neg h2, if_neg h2]
        by_cases h3 : pyMatch m3 s.data
        · rw [if_pos h3, if_pos h3]
          cases hx : strptime_of (extract3 s.data) <;>
            simp [localize_unresolved tzRaw h]
        · rw [if_neg h3, if_neg h3]
          by_cases h4 : pyMatch m4 s.data
          · rw [if_pos h4, if_pos h4]
            cases hx : strptime4_of (extract4 s.data) <;>
              simp [localize_unresolved tzRaw h]
          · rw [if_neg h4, if_neg h4]
  · intro x
    cases hf : pyFloat x
    · rw [epoch_to_human, hf, epoch_to_human, hf]
    · rename_i v
      rw [show epoch_to_human x (some tzRaw) = epoch_to_human_core v (some tzRaw) from
            by rw [epoch_to_human, hf],
          show epoch_to_human x none = epoch_to_human_core v none from
            by rw [epoch_to_human, hf],
          epoch_to_human_core, epoch_to_human_core]
      cases ht : fromtimestamp_utc v
      · rfl
      · dsimp only
        by_cases hr : tzRaw ≠ ""
        · rw [if_pos hr, h]
        · rw [if_neg hr]

/-- Witness for C7 at the unresolvable spec "mars". -/
theorem C7_unresolved_tz_acts_as_absent_witness :
    human_to_epoch "2025-09-10-131100" (some "mars")
      = human_to_epoch "2025-09-10-131100" none ∧
    epoch_to_human (.int 1757509860) (some "mars")
      = epoch_to_human (.int 1757509860) none :=
  ⟨(C7_unresolved_tz_acts_as_absent "mars" (by decide)).1 "2025-09-10-131100",
   (C7_unresolved_tz_acts_as_absent "mars" (by decide)).2 (.int 1757509860)⟩

/-- Counterexample to C9: the numeric input 253402300800 (one second past
9999-12-31 23:59:59 UTC) makes `epoch_to_human` raise even though the
input is numeric: `datetime.fromtimestamp` rejects it. -/
theorem C9_counterexample :
    pyFloat (.int 253402300800) = some 253402300800 ∧
    epoch_to_human (.int 253402300800) none = .error (.valueError "year is out of range") ∧
    epoch_to_human (.str "253402300800") none = .error (.valueError "year is out of range") :=
  ⟨by decide, by decide, by decide⟩

/-- C9 (amended): `epoch_to_human` never throws for numeric input whose
value lies in the representable datetime range, with or without a
timezone argument; non-numeric string input fails with a FormatError
(raised `ValueError`); numeric input outside the representable range also
raises. -/
theorem C9_numeric_behaviour :
    (∀ v : Int, -62135596800 ≤ v → v ≤ 253402300799 →
      ∀ tz, ∃ r, epoch_to_human (.int v) tz = .ok r) ∧
    (∀ s : String, pyFloat (.str s) = none →
      ∀ tz, epoch_to_human (.str s) tz = .error (.valueError "could not convert string to float")) ∧
    (∀ s : String, ∀ v : Int, pyFloat (.str s) = some v →
      -62135596800 ≤ v → v ≤ 253402300799 →
      ∀ tz, ∃ r, epoch_to_human (.str s) tz = .ok r) := by
  refine ⟨?_, ?_, ?_⟩
  · intro v h1 h2 tz
    exact epoch_to_human_ok_of_range (.int v) v tz rfl h1 h2
  · intro s hf tz
    rw [epoch_to_human, hf]
  · intro s v hf h1 h2 tz
    exact epoch_to_human_ok_of_range (.str s) v tz hf h1 h2

/-- Witness for C9 at epoch 0, the non-numeric string "not-a-number" and
the numeric string "1757509860". -/
theorem C9_numeric_behaviour_witness :
    (∃ r, epoch_to_human (.int 0) none = .ok r) ∧
    epoch_to_human (.str "not-a-number") none
      = .error (.valueError "could not convert string to float") ∧
    (∃ r, epoch_to_human (.str "1757509860") none = .ok r) :=
  ⟨C9_numeric_behaviour.1 0 (by decide) (by decide) none,
   C9_numeric_behaviour.2.1 "not-a-number" (by decide) none,
   C9_numeric_behaviour.2.2 "1757509860" 1757509860 (by decide) (by decide) (by decide) none⟩

/-- Counterexample to C8: `human_to_epoch` does not trim whitespace or
decode URL-encoded spaces before pattern matching: the same string that
parses on its own fails with the unsupported-format error when surrounded
by whitespace or when its space is URL-encoded. -/
theorem C8_counterexample :
    human_to_epoch "2025-09-10-131100" none = .ok 1757509860 ∧
    human_to_epoch " 2025-09-10-131100" none = .error (.valueError invalid_format_msg) ∧
    human_to_epoch "2025-09-10-131100 " none = .error (.valueError invalid_format_msg) ∧
    human_to_epoch "09/10/2025 13:11" none = .ok 1757509860 ∧
    human_to_epoch "09/10/2025%2013:11" none = .error (.valueError invalid_format_msg) :=
  ⟨by decide, by decide, by decide, by decide, by decide⟩

/-! ## Shape lemmas for the pattern matchers -/

/-- A successful first-pattern extraction forces the exact 17-character
shape with digits and dashes in fixed positions. -/
theorem extract1_shape {l : List Char} {x : Nat × Nat × Nat × Nat × Nat × Nat}
    (h : extract1 l = some x) :
    ∃ y1 y2 y3 y4 o1 o2 d1 d2 h1 h2 i1 i2 s1 s2,
      l = [y1, y2, y3, y4, '-', o1, o2, '-', d1, d2, '-', h1, h2, i1, i2, s1, s2] ∧
      y1.isDigit = true ∧ y2.isDigit = true ∧ y3.isDigit = true ∧ y4.isDigit = true ∧
      o1.isDigit = true ∧ o2.isDigit = true ∧ d1.isDigit = true ∧ d2.isDigit = true ∧
      h1.isDigit = true ∧ h2.isDigit = true ∧ i1.isDigit = true ∧ i2.isDigit = true ∧
      s1.isDigit = true ∧ s2.isDigit = true := by
  revert h
  unfold extract1
  split
  · rename_i y1 y2 y3 y4 a o1 o2 b d1 d2 c h1 h2 i1 i2 s1 s2
    intro h
    split at h
    · rename_i hcond
      simp only [Bool.and_eq_true, beq_iff_eq] at hcond
      refine ⟨y1, y2, y3, y4, o1, o2, d1, d2, h1, h2, i1, i2, s1, s2, ?_, ?_, ?_, ?_, ?_,
        ?_, ?_, ?_, ?_, ?_, ?_, ?_, ?_, ?_, ?_⟩ <;>
        first
          | (simp only [List.cons.injEq, and_true, true_and]; tauto)
          | tauto
    · simp at h
  · intro h
    simp at h

/-- A successful second-pattern extraction forces 14 digits. -/
theorem extract2_shape {l : List Char} {x : Nat × Nat × Nat × Nat × Nat × Nat}
    (h : extract2 l = some x) :
    ∃ y1 y2 y3 y4 o1 o2 d1 d2 h1 h2 i1 i2 s1 s2,
      l = [y1, y2, y3, y4, o1, o2, d1, d2, h1, h2, i1, i2, s1, s2] ∧
      y1.isDigit = true ∧ y2.isDigit = true ∧ y3.isDigit = true ∧ y4.isDigit = true ∧
      s2.isDigit = true := by
  revert h
  unfold extract2
  split
  · rename_i y1 y2 y3 y4 o1 o2 d1 d2 h1 h2 i1 i2 s1 s2
    intro h
    split at h
    · rename_i hcond
      simp only [Bool.and_eq_true] at hcond
      exact ⟨y1, y2, y3, y4, o1, o2, d1, d2, h1, h2, i1, i2, s1, s2, rfl,
        by tauto, by tauto, by tauto, by tauto, by tauto⟩
    · simp at h
  · intro h
    simp at h

/-- A successful third-pattern extraction forces 12 digits. -/
theorem extract3_shape {l : List Char} {x : Nat × Nat × Nat × Nat × Nat × Nat}
    (h : extract3 l = some x) :
    ∃ y1 y2 y3 y4 o1 o2 d1 d2 h1 h2 i1 i2,
      l = [y1, y2, y3, y4, o1, o2, d1, d2, h1, h2, i1, i2] ∧
      y1.isDigit = true ∧ y2.isDigit = true ∧ y3.isDigit = true ∧ y4.isDigit = true ∧
      i2.isDigit = true := by
  revert h
  unfold extract3
  split
  · rename_i y1 y2 y3 y4 o1 o2 d1 d2 h1 h2 i1 i2
    intro h
    split at h
    · rename_i hcond
      simp only [Bool.and_eq_true] at hcond
      exact ⟨y1, y2, y3, y4, o1, o2, d1, d2, h1, h2, i1, i2, rfl,
        by tauto, by tauto, by tauto, by tauto, by tauto⟩
    · simp at h
  · intro h
    simp at h

/-- Decomposition of a successful `digits12` match. -/
theorem digits12_spec {l : List Char} {t : Char} {v : Nat} {r : List Char}
    (h : digits12 l t = some (v, r)) :
    (∃ a, a.isDigit = true ∧ l = a :: t :: r) ∨
    (∃ a b, a.isDigit = true ∧ b.isDigit = true ∧ l = a :: b :: t :: r) := by
  revert h
  unfold digits12
  split
  · rename_i a c rest
    intro h
    split at h
    · rename_i hdig
      split at h
      · rename_i hct
        rw [beq_iff_eq] at hct
        simp only [Option.some.injEq, Prod.mk.injEq] at h
        exact Or.inl ⟨a, hdig, by rw [hct, h.2]⟩
      · split at h
        · rename_i hcd
          split at h
          · rename_i u r2
            split at h
            · rename_i hut
              rw [beq_iff_eq] at hut
              simp only [Option.some.injEq, Prod.mk.injEq] at h
              exact Or.inr ⟨a, c, hdig, hcd, by rw [hut, h.2]⟩
            · simp at h
          · simp at h
        · simp at h
    · simp at h
  · intro h
    simp at h

/-- Structural consequences of a successful fourth-pattern extraction:
a digit head, a slash in position 1 or 2, a length between 13 and 16, and
a digit final character. -/
theorem extract4_facts {l : List Char} {x : Nat × Nat × Nat × Nat × Nat}
    (h : extract4 l = some x) :
    (l.getD 0 ' ').isDigit = true ∧
    (l.getD 1 ' ' = '/' ∨ ((l.getD 1 ' ').isDigit = true ∧ l.getD 2 ' ' = '/')) ∧
    (13 ≤ l.length ∧ l.length ≤ 16) ∧
    (∃ c, l.getLast? = some c ∧ c.isDigit = true) := by
  rw [extract4] at h
  cases hm : digits12 l '/' with
  | none => rw [hm] at h; simp at h
  | some p1 =>
    obtain ⟨mo, r1⟩ := p1
    rw [hm] at h
    dsimp only at h
    cases hm2 : digits12 r1 '/' with
    | none => rw [hm2] at h; simp at h
    | some p2 =>
      obtain ⟨dd, r2⟩ := p2
      rw [hm2] at h
      dsimp only at h
      revert h
      split
      · rename_i y1 y2 y3 y4 sp r3
        intro h
        split at h
        · rename_i hcond
          simp only [Bool.and_eq_true, beq_iff_eq] at hcond
          cases hm3 : digits12 r3 ':' with
          | none => rw [hm3] at h; simp at h
          | some p3 =>
            obtain ⟨hh, r4⟩ := p3
            rw [hm3] at h
            dsimp only at h
            revert h
            split
            · rename_i i1 i2
              intro h
              split at h
              · rename_i hcond2
                simp only [Bool.and_eq_true] at hcond2
                rcases digits12_spec hm3 with ⟨d1, hd1, hr3⟩ | ⟨d1, d2, hd1, hd2, hr3⟩ <;>
                  subst hr3 <;>
                  rcases digits12_spec hm2 with ⟨c1, hc1, hr1⟩ | ⟨c1, c2, hc1, hc2, hr1⟩ <;>
                  subst hr1 <;>
                  rcases digits12_spec hm with ⟨a1, ha1, hl⟩ | ⟨a1, a2, ha1, ha2, hl⟩ <;>
                  subst hl <;>
                  exact ⟨ha1, by tauto, by simp, ⟨i2, rfl, by tauto⟩⟩
              · simp at h
            · intro h
              simp at h
        · simp at h
      · intro h
        simp at h

/-- Model fact: `strptime_of` either yields a datetime or a `ValueError`. -/
theorem strptime_of_cases (x : Option (Nat × Nat × Nat × Nat × Nat × Nat)) :
    (∃ t, strptime_of x = .ok t) ∨ (∃ msg, strptime_of x = .error (.valueError msg)) := by
  rcases x with _ | ⟨y, mo, d, h, mi, s⟩
  · exact Or.inr ⟨_, rfl⟩
  · rw [strptime_of, checkFields]
    split
    · exact Or.inl ⟨_, rfl⟩
    · exact Or.inr ⟨_, rfl⟩

/-- Model fact: `strptime4_of` either yields a datetime or a `ValueError`. -/
theorem strptime4_of_cases (x : Option (Nat × Nat × Nat × Nat × Nat)) :
    (∃ t, strptime4_of x = .ok t) ∨ (∃ msg, strptime4_of x = .error (.valueError msg)) := by
  rcases x with _ | ⟨mo, d, y, h, mi⟩
  · exact Or.inr ⟨_, rfl⟩
  · rw [strptime4_of, checkFields]
    split
    · exact Or.inl ⟨_, rfl⟩
    · exact Or.inr ⟨_, rfl⟩

/-- C5: `human_to_epoch` fails with a FormatError (raised `ValueError`)
and never with any other kind of failure: inputs matching no supported
pattern ("invalid-date", "not-a-date-at-all") produce the error message
listing the supported formats, a structurally matching input with
out-of-range calendar fields ("2025-13-45-250000", month 13 and day 45)
produces a `ValueError` from field validation, and on every input the
result is either an epoch or a `ValueError`. -/
theorem C5_value_error_only :
    (∀ tz, human_to_epoch "invalid-date" tz = .error (.valueError invalid_format_msg)) ∧
    (∀ tz, human_to_epoch "not-a-date-at-all" tz = .error (.valueError invalid_format_msg)) ∧
    (∀ tz, human_to_epoch "2025-13-45-250000" tz
        = .error (.valueError "time data does not match format")) ∧
    invalid_format_msg
      = "Invalid datetime format. Supported formats: YYYY-MM-DD-HHMMSS, YYYYMMDDHHMMSS, YYYYMMDDHHMM, MM/DD/YYYY HH:MM" ∧
    (∀ (s : String) (tz : Option String),
      (∃ n, human_to_epoch s tz = .ok n) ∨
      (∃ msg, human_to_epoch s tz = .error (.valueError msg))) := by
  refine ⟨fun tz => rfl, fun tz => rfl, fun tz => rfl, rfl, ?_⟩
  intro s tz
  rw [human_to_epoch]
  by_cases h1 : pyMatch m1 s.data
  · rw [if_pos h1]
    rcases strptime_of_cases (extract1 s.data) with ⟨t, ht⟩ | ⟨msg, hmsg⟩
    · rw [ht]; exact Or.inl ⟨_, rfl⟩
    · rw [hmsg]; exact Or.inr ⟨msg, rfl⟩
  · rw [if_neg h1]
    by_cases h2 : pyMatch m2 s.data
    · rw [if_pos h2]
      rcases strptime_of_cases (extract2 s.data) with ⟨t, ht⟩ | ⟨msg, hmsg⟩
      · rw [ht]; exact Or.inl ⟨_, rfl⟩
      · rw [hmsg]; exact Or.inr ⟨msg, rfl⟩
    · rw [if_neg h2]
      by_cases h3 : pyMatch m3 s.data
      · rw [if_pos h3]
        rcases strptime_of_cases (extract3 s.data) with ⟨t, ht⟩ | ⟨msg, hmsg⟩
        · rw [ht]; exact Or.inl ⟨_, rfl⟩
        · rw [hmsg]; exact Or.inr ⟨msg, rfl⟩
      · rw [if_neg h3]
        by_cases h4 : pyMatch m4 s.data
        · rw [if_pos h4]
          rcases strptime4_of_cases (extract4 s.data) with ⟨t, ht⟩ | ⟨msg, hmsg⟩
          · rw [ht]; exact Or.inl ⟨_, rfl⟩
          · rw [hmsg]; exact Or.inr ⟨msg, rfl⟩
        · rw [if_neg h4]
          exact Or.inr ⟨_, rfl⟩

/-! ## Mutual exclusivity of the four patterns -/

theorem m1_facts {l : List Char} (h : m1 l = true) :
    l.length = 17 ∧ (l.getD 0 ' ').isDigit = true ∧ (l.getD 1 ' ').isDigit = true ∧
    (l.getD 2 ' ').isDigit = true ∧ ∃ c, l.getLast? = some c ∧ c.isDigit = true := by
  rw [m1, Option.isSome_iff_exists] at h
  obtain ⟨x, hx⟩ := h
  obtain ⟨y1, y2, y3, y4, o1, o2, d1, d2, h1, h2, i1, i2, s1, s2, hl,
    hy1, hy2, hy3, hy4, ho1, ho2, hd1, hd2, hh1, hh2, hi1, hi2, hs1, hs2⟩ := extract1_shape hx
  subst hl
  exact ⟨rfl, hy1, hy2, hy3, s2, rfl, hs2⟩

theorem m2_facts {l : List Char} (h : m2 l = true) :
    l.length = 14 ∧ (l.getD 0 ' ').isDigit = true ∧ (l.getD 1 ' ').isDigit = true ∧
    (l.getD 2 ' ').isDigit = true ∧ ∃ c, l.getLast? = some c ∧ c.isDigit = true := by
  rw [m2, Option.isSome_iff_exists] at h
  obtain ⟨x, hx⟩ := h
  obtain ⟨y1, y2, y3, y4, o1, o2, d1, d2, h1, h2, i1, i2, s1, s2, hl,
    hy1, hy2, hy3, hy4, hs2⟩ := extract2_shape hx
  subst hl
  exact ⟨rfl, hy1, hy2, hy3, s2, rfl, hs2⟩

theorem m3_facts {l : List Char} (h : m3 l = true) :
    l.length = 12 ∧ (l.getD 0 ' ').isDigit = true ∧ (l.getD 1 ' ').isDigit = true ∧
    (l.getD 2 ' ').isDigit = true ∧ ∃ c, l.getLast? = some c ∧ c.isDigit = true := by
  rw [m3, Option.isSome_iff_exists] at h
  obtain ⟨x, hx⟩ := h
  obtain ⟨y1, y2, y3, y4, o1, o2, d1, d2, h1, h2, i1, i2, hl,
    hy1, hy2, hy3, hy4, hi2⟩ := extract3_shape hx
  subst hl
  exact ⟨rfl, hy1, hy2, hy3, i2, rfl, hi2⟩

theorem m4_facts {l : List Char} (h : m4 l = true) :
    (l.getD 0 ' ').isDigit = true ∧
    (l.getD 1 ' ' = '/' ∨ ((l.getD 1 ' ').isDigit = true ∧ l.getD 2 ' ' = '/')) ∧
    (13 ≤ l.length ∧ l.length ≤ 16) ∧
    (∃ c, l.getLast? = some c ∧ c.isDigit = true) := by
  rw [m4, Option.isSome_iff_exists] at h
  obtain ⟨x, hx⟩ := h
  exact extract4_facts hx

/-- The exact matchers of distinct patterns never both succeed: the two
all-digit patterns and the dashed pattern have pairwise different lengths,
and the slash pattern requires a slash where the others require digits. -/
theorem cores_exclusive (l : List Char) :
    (m1 l = true → m2 l = true → False) ∧
    (m1 l = true → m3 l = true → False) ∧
    (m1 l = true → m4 l = true → False) ∧
    (m2 l = true → m3 l = true → False) ∧
    (m2 l = true → m4 l = true → False) ∧
    (m3 l = true → m4 l = true → False) := by
  have hsl : ('/').isDigit = false := by decide
  refine ⟨?_, ?_, ?_, ?_, ?_, ?_⟩
  · intro h1 h2
    have := (m1_facts h1).1
    have := (m2_facts h2).1
    omega
  · intro h1 h3
    have := (m1_facts h1).1
    have := (m3_facts h3).1
    omega
  · intro h1 h4
    obtain ⟨-, -, hp1, hp2, -⟩ := m1_facts h1
    rcases (m4_facts h4).2.1 with hs | ⟨-, hs⟩
    · rw [hs] at hp1; rw [hsl] at hp1; exact absurd hp1 (by decide)
    · rw [hs] at hp2; rw [hsl] at hp2; exact absurd hp2 (by decide)
  · intro h2 h3
    have := (m2_facts h2).1
    have := (m3_facts h3).1
    omega
  · intro h2 h4
    obtain ⟨-, -, hp1, hp2, -⟩ := m2_facts h2
    rcases (m4_facts h4).2.1 with hs | ⟨-, hs⟩
    · rw [hs] at hp1; rw [hsl] at hp1; exact absurd hp1 (by decide)
    · rw [hs] at hp2; rw [hsl] at hp2; exact absurd hp2 (by decide)
  · intro h3 h4
    obtain ⟨-, -, hp1, hp2, -⟩ := m3_facts h3
    rcases (m4_facts h4).2.1 with hs | ⟨-, hs⟩
    · rw [hs] at hp1; rw [hsl] at hp1; exact absurd hp1 (by decide)
    · rw [hs] at hp2; rw [hsl] at hp2; exact absurd hp2 (by decide)

theorem pyMatch_elim {f : List Char → Bool} {l : List Char}
    (h : pyMatch f l = true) :
    f l = true ∨ (l.getLast? = some '\n' ∧ f l.dropLast = true) := by
  rw [pyMatch] at h
  simp only [Bool.or_eq_true, Bool.and_eq_true, beq_iff_eq] at h
  exact h

/-- Lifting of core-matcher exclusivity through the trailing-newline rule:
each pattern's exact match ends in a digit, so the direct and
newline-assisted cases cannot mix. -/
theorem pyMatch_pair_false {f g : List Char → Bool}
    (hfg : ∀ l', f l' = true → g l' = true → False)
    (hflast : ∀ l', f l' = true → ∃ c, l'.getLast? = some c ∧ c.isDigit = true)
    (hglast : ∀ l', g l' = true → ∃ c, l'.getLast? = some c ∧ c.isDigit = true)
    (l : List Char) (hf : pyMatch f l = true) (hg : pyMatch g l = true) : False := by
  rcases pyMatch_elim hf with hf' | ⟨hnlf, hf'⟩ <;>
    rcases pyMatch_elim hg with hg' | ⟨hnlg, hg'⟩
  · exact hfg l hf' hg'
  · obtain ⟨c, hc, hcd⟩ := hflast l hf'
    rw [hnlg, Option.some.injEq] at hc
    rw [← hc] at hcd
    exact absurd hcd (by decide)
  · obtain ⟨c, hc, hcd⟩ := hglast l hg'
    rw [hnlf, Option.some.injEq] at hc
    rw [← hc] at hcd
    exact absurd hcd (by decide)
  · exact hfg l.dropLast hf' hg'

theorem pair12 (l : List Char) : pyMatch m1 l = true → pyMatch m2 l = true → False :=
  pyMatch_pair_false (fun l' => (cores_exclusive l').1)
    (fun _ h => (m1_facts h).2.2.2.2) (fun _ h => (m2_facts h).2.2.2.2) l

theorem pair13 (l : List Char) : pyMatch m1 l = true → pyMatch m3 l = true → False :=
  pyMatch_pair_false (fun l' => (cores_exclusive l').2.1)
    (fun _ h => (m1_facts h).2.2.2.2) (fun _ h => (m3_facts h).2.2.2.2) l

theorem pair14 (l : List Char) : pyMatch m1 l = true → pyMatch m4 l = true → False :=
  pyMatch_pair_false (fun l' => (cores_exclusive l').2.2.1)
    (fun _ h => (m1_facts h).2.2.2.2) (fun _ h => (m4_facts h).2.2.2) l

theorem pair23 (l : List Char) : pyMatch m2 l = true → pyMatch m3 l = true → False :=
  pyMatch_pair_false (fun l' => (cores_exclusive l').2.2.2.1)
    (fun _ h => (m2_facts h).2.2.2.2) (fun _ h => (m3_facts h).2.2.2.2) l

theorem pair24 (l : List Char) : pyMatch m2 l = true → pyMatch m4 l = true → False :=
  pyMatch_pair_false (fun l' => (cores_exclusive l').2.2.2.2.1)
    (fun _ h => (m2_facts h).2.2.2.2) (fun _ h => (m4_facts h).2.2.2) l

theorem pair34 (l : List Char) : pyMatch m3 l = true → pyMatch m4 l = true → False :=
  pyMatch_pair_false (fun l' => (cores_exclusive l').2.2.2.2.2)
    (fun _ h => (m3_facts h).2.2.2.2) (fun _ h => (m4_facts h).2.2.2) l

/-- C10: the four format patterns of `human_to_epoch` are mutually
exclusive (at most one of the four regexes matches any input), so the
first-match ordered dispatch agrees with dispatch on the unique matching
pattern and the declared pattern order never affects the result: dispatch
with the pattern order reversed computes the same function. -/
theorem C10_patterns_mutually_exclusive (s : String) (tz : Option String) :
    ((if pyMatch m1 s.data then 1 else 0) + (if pyMatch m2 s.data then 1 else 0)
      + (if pyMatch m3 s.data then 1 else 0) + (if pyMatch m4 s.data then 1 else 0) ≤ 1) ∧
    human_to_epoch_reordered s tz = human_to_epoch s tz := by
  constructor
  · cases hb1 : pyMatch m1 s.data <;> cases hb2 : pyMatch m2 s.data <;>
      cases hb3 : pyMatch m3 s.data <;> cases hb4 : pyMatch m4 s.data <;>
      first
        | (exact (pair12 s.data hb1 hb2).elim)
        | (exact (pair13 s.data hb1 hb3).elim)
        | (exact (pair14 s.data hb1 hb4).elim)
        | (exact (pair23 s.data hb2 hb3).elim)
        | (exact (pair24 s.data hb2 hb4).elim)
        | (exact (pair34 s.data hb3 hb4).elim)
        | decide
  · rw [human_to_epoch, human_to_epoch_reordered]
    cases hb1 : pyMatch m1 s.data <;> cases hb2 : pyMatch m2 s.data <;>
      cases hb3 : pyMatch m3 s.data <;> cases hb4 : pyMatch m4 s.data <;>
      first
        | (exact (pair12 s.data hb1 hb2).elim)
        | (exact (pair13 s.data hb1 hb3).elim)
        | (exact (pair14 s.data hb1 hb4).elim)
        | (exact (pair23 s.data hb2 hb3).elim)
        | (exact (pair24 s.data hb2 hb4).elim)
        | (exact (pair34 s.data hb3 hb4).elim)
        | simp [hb1, hb2, hb3, hb4]

/-! ## No preprocessing of the parser input -/

theorem pyMatch_space_false (f : List Char → Bool)
    (hf : ∀ l', f l' = true → (l'.getD 0 ' ').isDigit = true)
    (l : List Char) : pyMatch f (' ' :: l) = false := by
  have hcore : ∀ r, f (' ' :: r) = false := by
    intro r
    cases hc : f (' ' :: r)
    · rfl
    · have h1 := hf _ hc
      rw [show ((' ' :: r).getD 0 ' ') = ' ' from rfl] at h1
      exact absurd h1 (by decide)
  have hrest : (((' ' :: l).getLast? == some '\n') && f ((' ' :: l).dropLast)) = false := by
    cases l with
    | nil =>
      rw [show (([' '] : List Char).getLast? == some '\n') = false from by decide,
        Bool.false_and]
    | cons c r =>
      cases hb : ((' ' :: c :: r).getLast? == some '\n')
      · rw [Bool.false_and]
      · rw [Bool.true_and]
        exact hcore ((c :: r).dropLast)
  rw [pyMatch, hcore, hrest]
  rfl

/-- C8 (amended): `human_to_epoch` performs no trimming and no URL
decoding before pattern matching: every input beginning with a space fails
with the unsupported-format FormatError (each pattern requires a leading
digit), and the URL-encoded form "09/10/2025%2013:11" fails instead of
parsing like its decoded form. -/
theorem C8_no_preprocessing :
    (∀ (l : List Char) (tz : Option String),
      human_to_epoch (String.mk (' ' :: l)) tz = .error (.valueError invalid_format_msg)) ∧
    human_to_epoch "09/10/2025%2013:11" none = .error (.valueError invalid_format_msg) := by
  refine ⟨?_, by decide⟩
  intro l tz
  rw [human_to_epoch]
  rw [show (String.mk (' ' :: l)).data = ' ' :: l from rfl]
  rw [pyMatch_space_false m1 (fun _ h => (m1_facts h).2.1) l,
    pyMatch_space_false m2 (fun _ h => (m2_facts h).2.1) l,
    pyMatch_space_false m3 (fun _ h => (m3_facts h).2.1) l,
    pyMatch_space_false m4 (fun _ h => (m4_facts h).1) l]
  rfl

/-! ## The output format of the formatter -/

/-- C2: with no timezone argument the formatter's output is a three-letter
weekday abbreviation, a space, the `YYYY-MM-DD` date, a space, the
`HH:MM:SS` time, a space, and the literal "UTC"; in particular
`epoch_to_human 1757509860` is exactly "Wed 2025-09-10 13:11:00 UTC". -/
theorem C2_output_format :
    epoch_to_human (.int 1757509860) none = .ok "Wed 2025-09-10 13:11:00 UTC" ∧
    ∀ e : Int, -62135596800 ≤ e → e ≤ 253402300799 →
      ∃ w t, w ∈ weekday_names ∧ fromtimestamp_utc e = .ok t ∧
        epoch_to_human (.int e) none = .ok (String.mk
          (w.data ++ ' ' :: pad4 t.year.toNat ++ '-' :: pad2 t.month.toNat
            ++ '-' :: pad2 t.day.toNat ++ ' ' :: pad2 t.hour.toNat
            ++ ':' :: pad2 t.minute.toNat ++ ':' :: pad2 t.second.toNat
            ++ ' ' :: "UTC".data)) := by
  refine ⟨by decide, ?_⟩
  intro e h1 h2
  obtain ⟨w, hwmem, hweq⟩ := weekday_abbrev_cases
    (days_from_civil (dtOfEpoch e).year (dtOfEpoch e).month (dtOfEpoch e).day)
  refine ⟨w, dtOfEpoch e, hwmem, fromtimestamp_utc_ok h1 h2, ?_⟩
  rw [epoch_to_human_utc e h1 h2]
  congr 1
  rw [format_dt, hweq]

/-- Witness for C2 at the epoch 1757509860. -/
theorem C2_output_format_witness :
    epoch_to_human (.int 1757509860) none = .ok "Wed 2025-09-10 13:11:00 UTC" ∧
    ∃ w t, w ∈ weekday_names ∧ fromtimestamp_utc 1757509860 = .ok t ∧
      epoch_to_human (.int 1757509860) none = .ok (String.mk
        (w.data ++ ' ' :: pad4 t.year.toNat ++ '-' :: pad2 t.month.toNat
          ++ '-' :: pad2 t.day.toNat ++ ' ' :: pad2 t.hour.toNat
          ++ ':' :: pad2 t.minute.toNat ++ ':' :: pad2 t.second.toNat
          ++ ' ' :: "UTC".data)) :=
  ⟨C2_output_format.1, C2_output_format.2 1757509860 (by decide) (by decide)⟩

end Rantoo
